import Mathlib

/-!
Shallow embedding of the lnurlp extension (src/lnurl.py and src/crud.py):
pay links, the two LNURL-pay HTTP steps, and the CRUD layer. The database
is modelled as an explicit list of rows; the external collaborators
(fiat-rate oracle, metadata builder, callback URL builder, lnaddress
format check, key generation, short-id generation) are parameters, per
the call contract in the spec. Machine arithmetic on amounts is exact:
amounts are integers, rates and stored bounds are rationals.
-/

/-- Python round() on an exact rational: round half to even. -/
def pyRound (q : ℚ) : ℤ :=
  let f : ℤ := q.num.fdiv (q.den : ℤ)
  let frac : ℚ := q - (f : ℚ)
  if frac < 1/2 then f
  else if 1/2 < frac then f + 1
  else if f % 2 = 0 then f else f + 1

/-- Python int() on an exact rational: truncation toward zero. -/
def pyInt (q : ℚ) : ℤ := q.num.tdiv (q.den : ℤ)

/-- Modelled from the spec: rendering of a numeric bound inside a protocol
error message. The PayLink field types live in models.py, which is not among
the sources; the spec examples render the integral bounds as plain integers
("Amount 5000 is smaller than minimum 10000."), so an integral rational
prints as its integer value here. -/
def ratStr (q : ℚ) : String :=
  if q.den = 1 then toString q.num else toString q.num ++ "/" ++ toString q.den

/-- Splitting a character list at newline characters, the semantics of the
Python expression content.split with separator a newline. -/
def splitOnNewline : List Char → List (List Char)
  | [] => [[]]
  | c :: cs =>
    let r := splitOnNewline cs
    if c = '\n' then [] :: r
    else
      match r with
      | [] => [[c]]
      | h :: t => (c :: h) :: t

/-- Python str.strip(): drop whitespace from both ends. -/
def stripChars (cs : List Char) : List Char :=
  ((cs.dropWhile Char.isWhitespace).reverse.dropWhile Char.isWhitespace).reverse

/-- The list comprehension in get_or_create_lnurlp_settings:
line.strip() for each line in the file content split at newlines. -/
def pySplitStrip (s : String) : List String :=
  (splitOnNewline s.data).map (fun cs => String.mk (stripChars cs))

/-- A pay link row (table lnurlp.pay_links), fields as inserted by
create_pay_link in src/crud.py. Types follow the spec data model: bounds
are fiat-or-satoshi numbers (exact rationals here), counters naturals. -/
structure PayLink where
  id : String
  wallet : String
  description : String
  min : ℚ
  max : ℚ
  served_meta : ℕ
  served_pr : ℕ
  webhook_url : Option String
  webhook_headers : Option String
  webhook_body : Option String
  success_text : Option String
  success_url : Option String
  comment_chars : ℕ
  currency : Option String
  fiat_base_multiplier : ℚ
  username : Option String
  zaps : Bool
deriving DecidableEq, Repr

/-- Input of create_pay_link (CreatePayLinkData in models.py; the fields
are exactly those read by the INSERT in src/crud.py). -/
structure CreatePayLinkData where
  description : String
  min : ℚ
  max : ℚ
  webhook_url : Option String
  webhook_headers : Option String
  webhook_body : Option String
  success_text : Option String
  success_url : Option String
  comment_chars : ℕ
  currency : Option String
  fiat_base_multiplier : ℚ
  username : Option String
  zaps : Bool
deriving DecidableEq, Repr

/-- The pay_links table: an ordered list of rows (fetchone returns the
first match). -/
structure Db where
  pay_links : List PayLink
deriving DecidableEq, Repr

/-- External collaborators, per the call contract of the spec: the
fiat-rate oracle, the metadata builders of models.py (not among the
sources; per the spec the metadata string is a function of the description
and the optional username, plus the domain where given), the callback URL
builder of the routing framework, and the lnaddress format check of
src/services.py (not among the sources). -/
structure Collab where
  rates : String → ℚ
  metaProp : String → Option String → String
  metaDomain : String → Option String → String → String
  callbackUrl : String → String
  fmt_ok : String → Bool

/-- SELECT * FROM lnurlp.pay_links WHERE id = ? (fetchone). -/
def get_pay_link (db : Db) (link_id : String) : Option PayLink :=
  db.pay_links.find? (fun l => l.id == link_id)

/-- SELECT * FROM lnurlp.pay_links WHERE username = ? (fetchone). -/
def get_address_data (db : Db) (username : String) : Option PayLink :=
  db.pay_links.find? (fun l => l.username == some username)

/-- check_lnaddress_not_exists in src/crud.py: true when no row carries the
username; the source raises "Username already exists." otherwise. -/
def check_lnaddress_not_exists (db : Db) (username : String) : Bool :=
  (db.pay_links.filter (fun l => l.username == some username)).isEmpty

/-- The per-row effect of the UPDATE issued by increment_pay_link: add the
given deltas to the counters of the row with the given id. -/
def bumpLink (link_id : String) (dm dp : ℕ) (l : PayLink) : PayLink :=
  if l.id == link_id then
    { l with served_meta := l.served_meta + dm, served_pr := l.served_pr + dp }
  else l

/-- increment_pay_link in src/crud.py: an atomic relative UPDATE of the
counter columns followed by a re-read of the row. The source takes the
deltas as keyword arguments; the only call sites pass served_meta=1 or
served_pr=1, embedded here as the two deltas. -/
def increment_pay_link (db : Db) (link_id : String) (dm dp : ℕ) :
    Db × Option PayLink :=
  let db2 : Db := ⟨db.pay_links.map (bumpLink link_id dm dp)⟩
  (db2, get_pay_link db2 link_id)

/-- The row written by the INSERT of create_pay_link: the input fields,
with served_meta and served_pr initialized to 0. -/
def mkNewPayLink (data : CreatePayLinkData) (wallet_id link_id : String) :
    PayLink :=
  { id := link_id
    wallet := wallet_id
    description := data.description
    min := data.min
    max := data.max
    served_meta := 0
    served_pr := 0
    webhook_url := data.webhook_url
    webhook_headers := data.webhook_headers
    webhook_body := data.webhook_body
    success_text := data.success_text
    success_url := data.success_url
    comment_chars := data.comment_chars
    currency := data.currency
    fiat_base_multiplier := data.fiat_base_multiplier
    username := data.username
    zaps := data.zaps }

/-- Python truthiness of an optional string: None and the empty string are
falsy. -/
def truthyStr : Option String → Bool
  | none => false
  | some s => !(s == "")

/-- create_pay_link in src/crud.py. An exception raised by the username
checks precedes the INSERT, so an error result carries no store: nothing
was inserted. The message of check_lnaddress_format is modelled from the
spec (src/services.py is not among the sources): it fails on invalid
format. The generated short id is a parameter (collaborator contract). -/
def create_pay_link (E : Collab) (db : Db) (data : CreatePayLinkData)
    (wallet_id link_id : String) : Except String (Db × PayLink) :=
  if truthyStr data.username && ! E.fmt_ok (data.username.getD "") then
    .error "Invalid lnaddress format."
  else if truthyStr data.username &&
      ! check_lnaddress_not_exists db (data.username.getD "") then
    .error "Username already exists. Try a different one."
  else
    let link := mkNewPayLink data wallet_id link_id
    let db2 : Db := ⟨db.pay_links ++ [link]⟩
    match get_pay_link db2 link_id with
    | some l => .ok (db2, l)
    | none => .error "Newly created link could not be retrieved"

/-- The keyword arguments accepted by update_pay_link, as a typed
optional-field structure over the mutable fields (the spec design notes
prescribe exactly this typed modelling of the dynamic field map). For
username the outer option records whether the key is present, the inner
option its value. -/
structure PayLinkUpdate where
  description : Option String
  min : Option ℚ
  max : Option ℚ
  comment_chars : Option ℕ
  currency : Option (Option String)
  username : Option (Option String)
  zaps : Option Bool
deriving DecidableEq, Repr

/-- The per-row effect of the UPDATE statement built by update_pay_link:
set exactly the supplied fields. -/
def applyUpdate (kw : PayLinkUpdate) (l : PayLink) : PayLink :=
  { l with
    description := kw.description.getD l.description
    min := kw.min.getD l.min
    max := kw.max.getD l.max
    comment_chars := kw.comment_chars.getD l.comment_chars
    currency := kw.currency.getD l.currency
    username := kw.username.getD l.username
    zaps := kw.zaps.getD l.zaps }

/-- update_pay_link in src/crud.py: when a non-empty username is among the
supplied fields, re-validate format and global uniqueness exactly as in
create (the uniqueness query counts every row, the updated link included);
then apply the UPDATE and re-read the row. -/
def update_pay_link (E : Collab) (db : Db) (link_id : String)
    (kw : PayLinkUpdate) : Except String (Db × Option PayLink) :=
  if kw.username.isSome && !(((kw.username.getD none).getD "") == "") &&
      ! E.fmt_ok ((kw.username.getD none).getD "") then
    .error "Invalid lnaddress format."
  else if kw.username.isSome && !(((kw.username.getD none).getD "") == "") &&
      ! check_lnaddress_not_exists db ((kw.username.getD none).getD "") then
    .error "Username already exists. Try a different one."
  else
    let db2 : Db :=
      ⟨db.pay_links.map (fun l => if l.id == link_id then applyUpdate kw l else l)⟩
    .ok (db2, get_pay_link db2 link_id)

/-- The settings row of table lnurlp.settings (LnurlpSettings). -/
structure LnurlpSettings where
  nostr_private_key : String
deriving DecidableEq, Repr

/-- ExtendedLnurlpSettings: the settings row together with the relay list
read from the side artifact. -/
structure ExtendedLnurlpSettings where
  lnbits_nostr2http_relays : List String
  nostr_private_key : String
deriving DecidableEq, Repr

/-- The externally configured relay-file path and the file system, as seen
by the settings store. -/
structure SettingsEnv where
  relays_filepath : Option String
  files : List (String × String)
deriving DecidableEq, Repr

/-- The lnurlp.settings table (fetchone LIMIT 1 returns the head). -/
structure SettingsDb where
  settings_rows : List LnurlpSettings
deriving DecidableEq, Repr

/-- get_or_create_lnurlp_settings in src/crud.py. The freshly generated
private key is a parameter (collaborator contract). Note: the source binds
the stripped lines of the relay file to a local variable named lines and
never merges them into lnbits_nostr2http_relays, which stays the empty
list; the embedding reproduces this faithfully. -/
def get_or_create_lnurlp_settings (env : SettingsEnv) (sdb : SettingsDb)
    (new_key : String) : SettingsDb × ExtendedLnurlpSettings :=
  let row := sdb.settings_rows.head?
  let lnbits_nostr2http_relays : List String := []
  let lines : List String :=
    match env.relays_filepath with
    | some p =>
      match (env.files.find? (fun f => f.1 == p)).map Prod.snd with
      | some content => pySplitStrip content
      | none => []
    | none => []
  match row with
  | some r =>
    (sdb, { lnbits_nostr2http_relays := lnbits_nostr2http_relays,
            nostr_private_key := r.nostr_private_key })
  | none =>
    ({ settings_rows := sdb.settings_rows ++ [⟨new_key⟩] },
     { lnbits_nostr2http_relays := lnbits_nostr2http_relays,
       nostr_private_key := new_key })

/-- The rate computation shared by both handlers of src/lnurl.py:
get_fiat_rate_satoshis for the currency of the link when set, else 1. -/
def fiatRate (E : Collab) (link : PayLink) : ℚ :=
  match link.currency with
  | some c => E.rates c
  | none => 1

/-- The millisatoshi minimum recomputed at the callback (src/lnurl.py lines
119 to 127): rate times 995 times link.min when a currency is set, else
link.min times 1000. -/
def cbMin (E : Collab) (link : PayLink) : ℚ :=
  match link.currency with
  | some _ => fiatRate E link * 995 * link.min
  | none => link.min * 1000

/-- The millisatoshi maximum recomputed at the callback: rate times 1010
times link.max when a currency is set, else link.max times 1000. -/
def cbMax (E : Collab) (link : PayLink) : ℚ :=
  match link.currency with
  | some _ => fiatRate E link * 1010 * link.max
  | none => link.max * 1000

/-- The invoice-creation request issued to the external payment service
(the arguments of the create_invoice call in the callback handler). -/
structure InvoiceRequest where
  wallet_id : String
  amount : ℤ
  memo : String
  unhashed_description : String
  tag : String
  link : String
  comment : Option String
deriving DecidableEq, Repr

/-- Result of the callback handler: an HTTP 404, a protocol error payload
(serialized with HTTP success status), or an invoice request handed to the
external payment service together with the LnurlPayActionResponse. -/
inductive CbResult where
  | notFound404 (detail : String)
  | errorPayload (status reason : String)
  | invoice (req : InvoiceRequest)
deriving DecidableEq, Repr

/-- Whether a callback outcome created an invoice. -/
def CbResult.invoiceCreated : CbResult → Bool
  | .invoice _ => true
  | _ => false

/-- The validation and invoice-creation part of api_lnurl_callback
(src/lnurl.py lines 119 to 167), acting on the row returned by the
increment. The raw query parameter amount defaults to 0 when absent; the
comment length in the error message is written via getD, equal to the
source len(comment) whenever that branch is reachable (comment_chars is a
natural, so the branch needs a present comment). -/
def api_lnurl_callback_checks (E : Collab) (link : PayLink)
    (amount_q : Option ℤ) (comment : Option String) : CbResult :=
  let amount_received : ℤ := amount_q.getD 0
  if (amount_received : ℚ) < cbMin E link then
    .errorPayload "ERROR"
      ("Amount " ++ toString amount_received ++ " is smaller than minimum "
        ++ ratStr (cbMin E link) ++ ".")
  else if cbMax E link < (amount_received : ℚ) then
    .errorPayload "ERROR"
      ("Amount " ++ toString amount_received ++ " is greater than maximum "
        ++ ratStr (cbMax E link) ++ ".")
  else if link.comment_chars < (comment.getD "").length then
    .errorPayload "ERROR"
      ("Got a comment with " ++ toString (comment.getD "").length
        ++ " characters, but can only accept " ++ toString link.comment_chars)
  else
    .invoice
      { wallet_id := link.wallet
        amount := pyInt ((amount_received : ℚ) / 1000)
        memo := link.description
        unhashed_description := E.metaProp link.description link.username
        tag := "lnurlp"
        link := link.id
        comment := comment }

/-- api_lnurl_callback in src/lnurl.py (the second handler of that name,
lines 113 to 167, the one whose body the spec describes): increment
served_pr via increment_pay_link, 404 when the row is absent, otherwise
run the checks on the returned row. -/
def api_lnurl_callback (E : Collab) (db : Db) (link_id : String)
    (amount_q : Option ℤ) (comment : Option String) : Db × CbResult :=
  let r := increment_pay_link db link_id 0 1
  (r.1,
    match r.2 with
    | none => .notFound404 "Pay link does not exist."
    | some link => api_lnurl_callback_checks E link amount_q comment)

/-- Result of the direct-id Pay Request handler: HTTP 404 or the
payRequest parameter object (commentAllowed present only when positive). -/
inductive Step1Result where
  | notFound404 (detail : String)
  | payRequest (callback : String) (minSendable maxSendable : ℤ)
      (metadata : String) (commentAllowed : Option ℕ)
deriving DecidableEq, Repr

/-- The response-building part of api_lnurl_response (src/lnurl.py lines
92 to 105): rate, then min and max sendable as round(bound times rate)
times 1000, metadata, and commentAllowed only when comment_chars is
positive. -/
def api_lnurl_response_checks (E : Collab) (link : PayLink) : Step1Result :=
  .payRequest (E.callbackUrl link.id)
    (pyRound (link.min * fiatRate E link) * 1000)
    (pyRound (link.max * fiatRate E link) * 1000)
    (E.metaProp link.description link.username)
    (if 0 < link.comment_chars then some link.comment_chars else none)

/-- api_lnurl_response in src/lnurl.py (lines 85 to 105): increment
served_meta via increment_pay_link, 404 when the row is absent, otherwise
build the Pay Request response from the returned row. -/
def api_lnurl_response (E : Collab) (db : Db) (link_id : String) :
    Db × Step1Result :=
  let r := increment_pay_link db link_id 1 0
  (r.1,
    match r.2 with
    | none => .notFound404 "Pay link does not exist."
    | some link => api_lnurl_response_checks E link)

/-- Result of the well-known address handler: the error payload dict
(HTTP success status) or the payRequest dict built inline. -/
inductive AddrResult where
  | errorPayload (status reason : String)
  | payRequest (tag callback metadata : String) (minSendable maxSendable : ℤ)
deriving DecidableEq, Repr

/-- lnurl_response in src/lnurl.py (lines 17 to 34, the well-known
lnurlp entry point): look the username up, answer an error payload when
absent, else the payRequest dict with minSendable equal to
int(min times 1000) and maxSendable equal to int(max times 1000). The
handler issues no write, so the store passes through unchanged. -/
def lnurl_response (E : Collab) (db : Db) (username domain : String) :
    Db × AddrResult :=
  match get_address_data db username with
  | none => (db, .errorPayload "ERROR" "Address not found.")
  | some a =>
    (db, .payRequest "payRequest" (E.callbackUrl a.id)
      (E.metaDomain a.description a.username domain)
      (pyInt (a.min * 1000)) (pyInt (a.max * 1000)))

/-- Fixture: concrete external collaborators for witness evaluation. The
fiat oracle quotes 50000 satoshis per unit for every currency. -/
def fixRates : Collab :=
  { rates := fun _ => 50000
    metaProp := fun d _ => d
    metaDomain := fun d _ dom => d ++ "@" ++ dom
    callbackUrl := fun i => "https://ln.example/api/v1/lnurl/cb/" ++ i
    fmt_ok := fun _ => true }

/-- Fixture: a satoshi-denominated link (no currency), min 10, max 1000,
comments disabled, username alice, counters 3 and 4. -/
def linkSat : PayLink :=
  { id := "sat001", wallet := "wallet1", description := "Tips"
    min := 10, max := 1000, served_meta := 3, served_pr := 4
    webhook_url := none, webhook_headers := none, webhook_body := none
    success_text := none, success_url := none, comment_chars := 0
    currency := none, fiat_base_multiplier := 100
    username := some "alice", zaps := false }

/-- Fixture: a USD-denominated link, min 1, max 5, comments up to 10. -/
def linkUsd : PayLink :=
  { id := "usd001", wallet := "wallet2", description := "Shop"
    min := 1, max := 5, served_meta := 0, served_pr := 0
    webhook_url := none, webhook_headers := none, webhook_body := none
    success_text := none, success_url := none, comment_chars := 10
    currency := some "USD", fiat_base_multiplier := 100
    username := some "bob", zaps := false }

/-- Fixture: a store holding the two links above. -/
def fixDb : Db := ⟨[linkSat, linkUsd]⟩

/-- find? commutes with mapping a function that preserves the predicate. -/
theorem find?_map_pres {α : Type} (p : α → Bool) (f : α → α)
    (hp : ∀ a, p (f a) = p a) (xs : List α) :
    (xs.map f).find? p = (xs.find? p).map f := by
  induction xs with
  | nil => rfl
  | cons x xs ih =>
    by_cases hx : p x = true
    · rw [List.map_cons, List.find?_cons_of_pos _ ((hp x).trans hx),
        List.find?_cons_of_pos _ hx]
      rfl
    · rw [List.map_cons, List.find?_cons_of_neg _ (by rw [hp]; exact hx),
        List.find?_cons_of_neg _ hx, ih]

/-- bumpLink preserves the id selection predicate. -/
theorem bumpLink_pres_id (link_id s : String) (dm dp : ℕ) (l : PayLink) :
    ((bumpLink link_id dm dp l).id == s) = (l.id == s) := by
  unfold bumpLink
  by_cases h : l.id == link_id <;> simp [h]

/-- increment_pay_link written out: the table mapped through bumpLink, and
the re-read row is the bumped found row. -/
theorem increment_pay_link_eq (db : Db) (link_id : String) (dm dp : ℕ) :
    increment_pay_link db link_id dm dp
      = (⟨db.pay_links.map (bumpLink link_id dm dp)⟩,
         (db.pay_links.find? (fun l => l.id == link_id)).map
           (bumpLink link_id dm dp)) := by
  unfold increment_pay_link get_pay_link
  dsimp only
  rw [find?_map_pres _ _ (bumpLink_pres_id link_id link_id dm dp)]

/-- When the row exists, the increment re-read returns it with the deltas
added to its counters. -/
theorem increment_found (db : Db) (link_id : String) (dm dp : ℕ)
    (link : PayLink) (h : get_pay_link db link_id = some link) :
    (increment_pay_link db link_id dm dp).2
      = some { link with served_meta := link.served_meta + dm,
                         served_pr := link.served_pr + dp } := by
  unfold get_pay_link at h
  have hsel : (link.id == link_id) = true := by
    simpa using List.find?_some h
  simp [increment_pay_link_eq, h, bumpLink, hsel]

/-- When the row is absent, the increment re-read returns none. -/
theorem increment_missing (db : Db) (link_id : String) (dm dp : ℕ)
    (h : get_pay_link db link_id = none) :
    (increment_pay_link db link_id dm dp).2 = none := by
  unfold get_pay_link at h
  simp [increment_pay_link_eq, h]

/-- The callback checks read no counter field, so the served counters of
the row do not influence the outcome. -/
theorem checks_ignore_counters (E : Collab) (link : PayLink) (dm dp : ℕ)
    (a : Option ℤ) (c : Option String) :
    api_lnurl_callback_checks E
      { link with served_meta := link.served_meta + dm,
                  served_pr := link.served_pr + dp } a c
      = api_lnurl_callback_checks E link a c := rfl

/-- The Pay Request response builder reads no counter field. -/
theorem response_checks_ignore_counters (E : Collab) (link : PayLink)
    (dm dp : ℕ) :
    api_lnurl_response_checks E
      { link with served_meta := link.served_meta + dm,
                  served_pr := link.served_pr + dp }
      = api_lnurl_response_checks E link := rfl

/-- Response of the callback when the link exists: the checks on the row. -/
theorem api_lnurl_callback_found (E : Collab) (db : Db) (link_id : String)
    (amount_q : Option ℤ) (c : Option String) (link : PayLink)
    (h : get_pay_link db link_id = some link) :
    (api_lnurl_callback E db link_id amount_q c).2
      = api_lnurl_callback_checks E link amount_q c := by
  unfold api_lnurl_callback
  dsimp only
  rw [increment_found db link_id 0 1 link h]
  exact checks_ignore_counters E link 0 1 amount_q c

/-- Response of the callback when the link is unknown: HTTP 404. -/
theorem api_lnurl_callback_notfound (E : Collab) (db : Db) (link_id : String)
    (amount_q : Option ℤ) (c : Option String)
    (h : get_pay_link db link_id = none) :
    (api_lnurl_callback E db link_id amount_q c).2
      = .notFound404 "Pay link does not exist." := by
  unfold api_lnurl_callback
  dsimp only
  rw [increment_missing db link_id 0 1 h]

/-- State effect of the callback: served_pr of the addressed row is
incremented by 1, every other row and field unchanged. -/
theorem api_lnurl_callback_state (E : Collab) (db : Db) (link_id : String)
    (amount_q : Option ℤ) (c : Option String) :
    (api_lnurl_callback E db link_id amount_q c).1
      = ⟨db.pay_links.map (fun l =>
          if l.id == link_id then { l with served_pr := l.served_pr + 1 }
          else l)⟩ := rfl

/-- Response of the direct-id Pay Request when the link exists. -/
theorem api_lnurl_response_found (E : Collab) (db : Db) (link_id : String)
    (link : PayLink) (h : get_pay_link db link_id = some link) :
    (api_lnurl_response E db link_id).2
      = api_lnurl_response_checks E link := by
  unfold api_lnurl_response
  dsimp only
  rw [increment_found db link_id 1 0 link h]
  exact response_checks_ignore_counters E link 1 0

/-- Response of the direct-id Pay Request when the link is unknown. -/
theorem api_lnurl_response_notfound (E : Collab) (db : Db) (link_id : String)
    (h : get_pay_link db link_id = none) :
    (api_lnurl_response E db link_id).2
      = .notFound404 "Pay link does not exist." := by
  unfold api_lnurl_response
  dsimp only
  rw [increment_missing db link_id 1 0 h]

/-- State effect of the direct-id Pay Request: served_meta of the
addressed row is incremented by 1, every other row and field unchanged. -/
theorem api_lnurl_response_state (E : Collab) (db : Db) (link_id : String) :
    (api_lnurl_response E db link_id).1
      = ⟨db.pay_links.map (fun l =>
          if l.id == link_id then { l with served_meta := l.served_meta + 1 }
          else l)⟩ := rfl

/-- State effect of the well-known address handler: none. -/
theorem lnurl_response_state (E : Collab) (db : Db) (username domain : String) :
    (lnurl_response E db username domain).1 = db := by
  unfold lnurl_response
  cases get_address_data db username <;> rfl

/-- Claim C2: at the callback on a link with a currency set, the
recomputed millisatoshi bounds are min = 0.995 x rate x link.min x 1000
(equivalently rate x 995 x link.min) and max = 1.010 x rate x link.max x
1000 (equivalently rate x 1010 x link.max), rate being the current fiat
rate in satoshis per unit; an amount strictly below this min is rejected
with the protocol error payload, and an amount within the bounds passes
the amount check and reaches the comment check and invoice creation. -/
theorem claim_C2 (E : Collab) (db : Db) (link_id cur : String)
    (link : PayLink) (amount : ℤ) (c : Option String)
    (hget : get_pay_link db link_id = some link)
    (hcur : link.currency = some cur) :
    (cbMin E link = (995 : ℚ) / 1000 * (E.rates cur * link.min * 1000)
      ∧ cbMax E link = (1010 : ℚ) / 1000 * (E.rates cur * link.max * 1000))
    ∧ ((amount : ℚ) < E.rates cur * 995 * link.min →
        (api_lnurl_callback E db link_id (some amount) c).2
          = CbResult.errorPayload "ERROR"
              ("Amount " ++ toString amount ++ " is smaller than minimum "
                ++ ratStr (E.rates cur * 995 * link.min) ++ "."))
    ∧ (E.rates cur * 995 * link.min ≤ (amount : ℚ) →
        (amount : ℚ) ≤ E.rates cur * 1010 * link.max →
        (api_lnurl_callback E db link_id (some amount) c).2
          = (if link.comment_chars < (c.getD "").length then
              CbResult.errorPayload "ERROR"
                ("Got a comment with " ++ toString (c.getD "").length
                  ++ " characters, but can only accept "
                  ++ toString link.comment_chars)
            else
              CbResult.invoice
                { wallet_id := link.wallet
                  amount := pyInt ((amount : ℚ) / 1000)
                  memo := link.description
                  unhashed_description := E.metaProp link.description link.username
                  tag := "lnurlp"
                  link := link.id
                  comment := c })) := by
  have hmn : cbMin E link = E.rates cur * 995 * link.min := by
    simp [cbMin, fiatRate, hcur]
  have hmx : cbMax E link = E.rates cur * 1010 * link.max := by
    simp [cbMax, fiatRate, hcur]
  have hfound := api_lnurl_callback_found E db link_id (some amount) c link hget
  refine ⟨⟨by rw [hmn]; ring, by rw [hmx]; ring⟩, ?_, ?_⟩
  · intro hlt
    rw [hfound]
    unfold api_lnurl_callback_checks
    dsimp only [Option.getD]
    rw [hmn, hmx, if_pos hlt]
  · intro h1 h2
    rw [hfound]
    unfold api_lnurl_callback_checks
    dsimp only [Option.getD]
    rw [hmn, hmx, if_neg (not_lt.mpr h1), if_neg (not_lt.mpr h2)]

/-- Claim C2 witness: on the USD fixture link (min 1, max 5, rate 50000)
the bound is 49750000 millisatoshi and the amount just below it is
rejected with the documented message. -/
theorem claim_C2_witness :
    (api_lnurl_callback fixRates fixDb "usd001" (some 49749999) none).2
      = CbResult.errorPayload "ERROR"
          "Amount 49749999 is smaller than minimum 49750000." := by
  have h := (claim_C2 fixRates fixDb "usd001" "USD" linkUsd 49749999 none
      rfl rfl).2.1 (by norm_num [fixRates, linkUsd])
  rw [h, show (fixRates.rates "USD" * 995 * linkUsd.min : ℚ) = 49750000 by
      norm_num [fixRates, linkUsd]]
  rfl

/-- Claim C3: at the callback on a link with no currency set, the accepted
range is link.min x 1000 to link.max x 1000 millisatoshi; an amount
strictly below the minimum yields the protocol error payload naming the
amount and the minimum, an amount strictly above the maximum yields the
payload naming the amount and the maximum (the stored bounds satisfy
min ≤ max, the documented invariant), with no invoice in either case; an
amount within the bounds passes the amount check and reaches the comment
check and invoice creation. -/
theorem claim_C3 (E : Collab) (db : Db) (link_id : String) (link : PayLink)
    (amount : ℤ) (c : Option String)
    (hget : get_pay_link db link_id = some link)
    (hcur : link.currency = none) (hwf : link.min ≤ link.max) :
    ((amount : ℚ) < link.min * 1000 →
        (api_lnurl_callback E db link_id (some amount) c).2
          = CbResult.errorPayload "ERROR"
              ("Amount " ++ toString amount ++ " is smaller than minimum "
                ++ ratStr (link.min * 1000) ++ "."))
    ∧ (link.max * 1000 < (amount : ℚ) →
        (api_lnurl_callback E db link_id (some amount) c).2
          = CbResult.errorPayload "ERROR"
              ("Amount " ++ toString amount ++ " is greater than maximum "
                ++ ratStr (link.max * 1000) ++ "."))
    ∧ (link.min * 1000 ≤ (amount : ℚ) → (amount : ℚ) ≤ link.max * 1000 →
        (api_lnurl_callback E db link_id (some amount) c).2
          = (if link.comment_chars < (c.getD "").length then
              CbResult.errorPayload "ERROR"
                ("Got a comment with " ++ toString (c.getD "").length
                  ++ " characters, but can only accept "
                  ++ toString link.comment_chars)
            else
              CbResult.invoice
                { wallet_id := link.wallet
                  amount := pyInt ((amount : ℚ) / 1000)
                  memo := link.description
                  unhashed_description := E.metaProp link.description link.username
                  tag := "lnurlp"
                  link := link.id
                  comment := c })) := by
  have hmn : cbMin E link = link.min * 1000 := by simp [cbMin, hcur]
  have hmx : cbMax E link = link.max * 1000 := by simp [cbMax, hcur]
  have hfound := api_lnurl_callback_found E db link_id (some amount) c link hget
  refine ⟨?_, ?_, ?_⟩
  · intro hlt
    rw [hfound]
    unfold api_lnurl_callback_checks
    dsimp only [Option.getD]
    rw [hmn, hmx, if_pos hlt]
  · intro hgt
    have hnlt : ¬ ((amount : ℚ) < link.min * 1000) := by
      have : link.min * 1000 ≤ link.max * 1000 := by
        have h1000 : (0 : ℚ) ≤ 1000 := by norm_num
        exact mul_le_mul_of_nonneg_right hwf h1000
      exact not_lt.mpr (le_of_lt (lt_of_le_of_lt this hgt))
    rw [hfound]
    unfold api_lnurl_callback_checks
    dsimp only [Option.getD]
    rw [hmn, hmx, if_neg hnlt, if_pos hgt]
  · intro h1 h2
    rw [hfound]
    unfold api_lnurl_callback_checks
    dsimp only [Option.getD]
    rw [hmn, hmx, if_neg (not_lt.mpr h1), if_neg (not_lt.mpr h2)]

/-- Claim C3 witness: on the satoshi fixture link (min 10, max 1000) the
amount 5000 is rejected with the exact documented message, the minimum
named as 10000. -/
theorem claim_C3_witness :
    (api_lnurl_callback fixRates fixDb "sat001" (some 5000) none).2
      = CbResult.errorPayload "ERROR"
          "Amount 5000 is smaller than minimum 10000." := by
  have h := (claim_C3 fixRates fixDb "sat001" linkSat 5000 none rfl rfl
      (by norm_num [linkSat])).1 (by norm_num [linkSat])
  rw [h, show (linkSat.min * 1000 : ℚ) = 10000 by norm_num [linkSat]]
  rfl

/-- Claim C7: at the callback, for a comment whose length strictly exceeds
comment_chars of the link (the amount having passed the bounds check that
precedes the comment check), a protocol error payload naming both the
comment length and the allowed length is returned and no invoice is
created; with comment_chars = 0 every non-empty comment is rejected, since
its length strictly exceeds 0. -/
theorem claim_C7 (E : Collab) (db : Db) (link_id : String) (link : PayLink)
    (amount : ℤ) (cm : String)
    (hget : get_pay_link db link_id = some link)
    (hmin : cbMin E link ≤ (amount : ℚ))
    (hmax : (amount : ℚ) ≤ cbMax E link)
    (hlen : link.comment_chars < cm.length) :
    (api_lnurl_callback E db link_id (some amount) (some cm)).2
      = CbResult.errorPayload "ERROR"
          ("Got a comment with " ++ toString cm.length
            ++ " characters, but can only accept "
            ++ toString link.comment_chars)
    ∧ (api_lnurl_callback E db link_id (some amount) (some cm)).2.invoiceCreated
        = false
    ∧ (link.comment_chars = 0 → 0 < cm.length) := by
  have hfound := api_lnurl_callback_found E db link_id (some amount)
    (some cm) link hget
  have hres : (api_lnurl_callback E db link_id (some amount) (some cm)).2
      = CbResult.errorPayload "ERROR"
          ("Got a comment with " ++ toString cm.length
            ++ " characters, but can only accept "
            ++ toString link.comment_chars) := by
    rw [hfound]
    unfold api_lnurl_callback_checks
    dsimp only [Option.getD]
    rw [if_neg (not_lt.mpr hmin), if_neg (not_lt.mpr hmax), if_pos hlen]
  refine ⟨hres, by rw [hres]; rfl, ?_⟩
  intro h0
  calc 0 = link.comment_chars := h0.symm
    _ < cm.length := hlen

/-- Claim C7 witness: on the satoshi fixture link (comment_chars 0) the
in-range amount 15000 with the two-character comment hi is rejected with
the message naming both lengths. -/
theorem claim_C7_witness :
    (api_lnurl_callback fixRates fixDb "sat001" (some 15000) (some "hi")).2
      = CbResult.errorPayload "ERROR"
          "Got a comment with 2 characters, but can only accept 0" := by
  have h := (claim_C7 fixRates fixDb "sat001" linkSat 15000 "hi" rfl
      (by norm_num [cbMin, linkSat]) (by norm_num [cbMax, linkSat])
      (by decide)).1
  rw [h]
  rfl

/-- Claim C1 counterexample: the claim states that a callback answered by
a protocol error payload leaves served_pr unchanged; on the satoshi
fixture link (served_pr 4) the amount 5000 is answered by the error
payload, yet served_pr has become 5: the increment precedes validation. -/
theorem claim_C1_counterexample :
    (api_lnurl_callback fixRates fixDb "sat001" (some 5000) none).2
      = CbResult.errorPayload "ERROR"
          "Amount 5000 is smaller than minimum 10000."
    ∧ (api_lnurl_callback fixRates fixDb "sat001"
        (some 5000) none).1.pay_links.map PayLink.served_pr = [5, 0]
    ∧ fixDb.pay_links.map PayLink.served_pr = [4, 0] := by
  refine ⟨?_, rfl, rfl⟩
  have hfound := api_lnurl_callback_found fixRates fixDb "sat001"
    (some 5000) none linkSat rfl
  rw [hfound]
  unfold api_lnurl_callback_checks
  dsimp only [Option.getD]
  rw [if_pos (show ((5000 : ℤ) : ℚ) < cbMin fixRates linkSat by
      norm_num [cbMin, linkSat])]
  rw [show cbMin fixRates linkSat = (10000 : ℚ) by norm_num [cbMin, linkSat]]
  rfl

/-- Claim C1 amended: on every callback request the stored links are
updated by incrementing served_pr of the link with the given id by 1 — the
increment precedes validation, so it also happens when a protocol error
payload is returned — and no other row or field changes; whenever the
response is a protocol error payload, no invoice is created. -/
theorem claim_C1_amended (E : Collab) (db : Db) (link_id : String)
    (amount_q : Option ℤ) (c : Option String) :
    (api_lnurl_callback E db link_id amount_q c).1
      = ⟨db.pay_links.map (fun l =>
          if l.id == link_id then { l with served_pr := l.served_pr + 1 }
          else l)⟩
    ∧ ∀ st r, (api_lnurl_callback E db link_id amount_q c).2
          = CbResult.errorPayload st r →
        (api_lnurl_callback E db link_id amount_q c).2.invoiceCreated = false := by
  refine ⟨api_lnurl_callback_state E db link_id amount_q c, ?_⟩
  intro st r h
  rw [h]
  rfl

/-- Claim C6: for a request naming an unknown link, the address-lookup Pay
Request path answers the protocol error payload (status ERROR with a
reason, carried by an HTTP success response), while the direct-id Pay
Request path and the callback path raise HTTP 404. -/
theorem claim_C6 (E : Collab) (db : Db) (username domain link_id : String)
    (amount_q : Option ℤ) (c : Option String)
    (haddr : get_address_data db username = none)
    (hid : get_pay_link db link_id = none) :
    lnurl_response E db username domain
      = (db, AddrResult.errorPayload "ERROR" "Address not found.")
    ∧ (api_lnurl_response E db link_id).2
        = Step1Result.notFound404 "Pay link does not exist."
    ∧ (api_lnurl_callback E db link_id amount_q c).2
        = CbResult.notFound404 "Pay link does not exist." := by
  refine ⟨?_, api_lnurl_response_notfound E db link_id hid,
    api_lnurl_callback_notfound E db link_id amount_q c hid⟩
  unfold lnurl_response
  rw [haddr]

/-- Claim C6 witness: on the empty store all three paths answer as
stated. -/
theorem claim_C6_witness :
    lnurl_response fixRates ⟨[]⟩ "carol" "ln.example"
      = (⟨[]⟩, AddrResult.errorPayload "ERROR" "Address not found.")
    ∧ (api_lnurl_response fixRates ⟨[]⟩ "nolink").2
        = Step1Result.notFound404 "Pay link does not exist."
    ∧ (api_lnurl_callback fixRates ⟨[]⟩ "nolink" (some 1000) none).2
        = CbResult.notFound404 "Pay link does not exist." :=
  claim_C6 fixRates ⟨[]⟩ "carol" "ln.example" "nolink" (some 1000) none rfl rfl

/-- Python int() of an integer value is that integer. -/
theorem pyInt_intCast (n : ℤ) : pyInt (n : ℚ) = n := by
  unfold pyInt
  rw [Rat.num_intCast, Rat.den_intCast]
  simpa using Int.tdiv_one n

/-- Python round() of an integer value is that integer. -/
theorem pyRound_intCast (n : ℤ) : pyRound (n : ℚ) = n := by
  unfold pyRound
  rw [Rat.num_intCast, Rat.den_intCast]
  norm_num

/-- Claim C4 counterexample: the claim states that the address-resolution
Pay Request also answers minSendable = round(link.min x rate) x 1000; on
the USD fixture link (min 1, max 5, rate 50000 satoshis per USD) the
address path answers minSendable 1000 and maxSendable 5000 — the raw
bounds times 1000, the fiat rate ignored — whereas round(min x rate) x
1000 is 50000000. -/
theorem claim_C4_counterexample :
    (lnurl_response fixRates fixDb "bob" "ln.example").2
      = AddrResult.payRequest "payRequest"
          "https://ln.example/api/v1/lnurl/cb/usd001" "Shop@ln.example"
          1000 5000
    ∧ pyRound (linkUsd.min * fixRates.rates "USD") * 1000 = 50000000
    ∧ (1000 : ℤ) ≠ pyRound (linkUsd.min * fixRates.rates "USD") * 1000 := by
  have hr : pyRound (linkUsd.min * fixRates.rates "USD") * 1000
      = (50000000 : ℤ) := by
    rw [show (linkUsd.min * fixRates.rates "USD" : ℚ) = ((50000 : ℤ) : ℚ) by
        norm_num [linkUsd, fixRates], pyRound_intCast]
    norm_num
  refine ⟨?_, hr, by rw [hr]; norm_num⟩
  unfold lnurl_response
  rw [show get_address_data fixDb "bob" = some linkUsd from rfl]
  dsimp only
  rw [show (linkUsd.min * 1000 : ℚ) = ((1000 : ℤ) : ℚ) by norm_num [linkUsd],
      show (linkUsd.max * 1000 : ℚ) = ((5000 : ℤ) : ℚ) by norm_num [linkUsd],
      pyInt_intCast, pyInt_intCast]
  rfl

/-- Claim C4 amended: the direct-id Pay Request answers minSendable =
round(link.min x rate) x 1000 and maxSendable = round(link.max x rate) x
1000 with rate the fiat rate of the currency of the link (1 when unset);
the address-resolution Pay Request instead answers int(link.min x 1000)
and int(link.max x 1000), ignoring currency and rate. -/
theorem claim_C4_amended (E : Collab) (db : Db) (link_id username domain :
    String) (link addrLink : PayLink)
    (hget : get_pay_link db link_id = some link)
    (haddr : get_address_data db username = some addrLink) :
    (api_lnurl_response E db link_id).2
      = Step1Result.payRequest (E.callbackUrl link.id)
          (pyRound (link.min * fiatRate E link) * 1000)
          (pyRound (link.max * fiatRate E link) * 1000)
          (E.metaProp link.description link.username)
          (if 0 < link.comment_chars then some link.comment_chars else none)
    ∧ (lnurl_response E db username domain).2
      = AddrResult.payRequest "payRequest" (E.callbackUrl addrLink.id)
          (E.metaDomain addrLink.description addrLink.username domain)
          (pyInt (addrLink.min * 1000)) (pyInt (addrLink.max * 1000)) := by
  constructor
  · rw [api_lnurl_response_found E db link_id link hget]
    rfl
  · unfold lnurl_response
    rw [haddr]

/-- Claim C4 amended witness: both conclusions evaluated on the fixture
store, using the USD link directly and the satoshi link by address. -/
theorem claim_C4_amended_witness :
    (api_lnurl_response fixRates fixDb "usd001").2
      = Step1Result.payRequest (fixRates.callbackUrl linkUsd.id)
          (pyRound (linkUsd.min * fiatRate fixRates linkUsd) * 1000)
          (pyRound (linkUsd.max * fiatRate fixRates linkUsd) * 1000)
          (fixRates.metaProp linkUsd.description linkUsd.username)
          (if 0 < linkUsd.comment_chars then some linkUsd.comment_chars
           else none)
    ∧ (lnurl_response fixRates fixDb "alice" "ln.example").2
      = AddrResult.payRequest "payRequest" (fixRates.callbackUrl linkSat.id)
          (fixRates.metaDomain linkSat.description linkSat.username
            "ln.example")
          (pyInt (linkSat.min * 1000)) (pyInt (linkSat.max * 1000)) :=
  claim_C4_amended fixRates fixDb "usd001" "alice" "ln.example"
    linkUsd linkSat rfl rfl

/-- Claim C5 counterexample: the claim states the address-resolution path
also increments served_meta; on the fixture store the address lookup for
alice answers a successful Pay Request but the store is returned unchanged
— served_meta of the link stays 3, no counter moves. -/
theorem claim_C5_counterexample :
    (lnurl_response fixRates fixDb "alice" "ln.example").1 = fixDb
    ∧ (lnurl_response fixRates fixDb "alice" "ln.example").2
        = AddrResult.payRequest "payRequest"
            "https://ln.example/api/v1/lnurl/cb/sat001" "Tips@ln.example"
            (pyInt (linkSat.min * 1000)) (pyInt (linkSat.max * 1000))
    ∧ fixDb.pay_links.map PayLink.served_meta = [3, 0] := by
  refine ⟨lnurl_response_state fixRates fixDb "alice" "ln.example", ?_, rfl⟩
  unfold lnurl_response
  rw [show get_address_data fixDb "alice" = some linkSat from rfl]
  rfl

/-- Claim C5 amended: the direct-id Pay Request increments served_meta of
the addressed link by exactly 1 and changes no other field and no other
row; the address-resolution path issues no write at all, so the store is
unchanged there. -/
theorem claim_C5_amended (E : Collab) (db : Db)
    (link_id username domain : String) (link : PayLink)
    (hget : get_pay_link db link_id = some link) :
    (api_lnurl_response E db link_id).1
      = ⟨db.pay_links.map (fun l =>
          if l.id == link_id then { l with served_meta := l.served_meta + 1 }
          else l)⟩
    ∧ (lnurl_response E db username domain).1 = db :=
  ⟨api_lnurl_response_state E db link_id,
   lnurl_response_state E db username domain⟩

/-- Claim C5 amended witness: evaluated on the fixture store at the
satoshi link. -/
theorem claim_C5_amended_witness :
    (api_lnurl_response fixRates fixDb "sat001").1
      = ⟨fixDb.pay_links.map (fun l =>
          if l.id == "sat001" then { l with served_meta := l.served_meta + 1 }
          else l)⟩
    ∧ (lnurl_response fixRates fixDb "alice" "ln.example").1 = fixDb :=
  claim_C5_amended fixRates fixDb "sat001" "alice" "ln.example" linkSat rfl

/-- Claim C8 evaluation at the failing input: with the artifact path
configured and the file holding two relay entries, get_or_create returns
the empty relay list in both the row-absent and the row-present case,
although the stripped lines of the artifact are the two entries — the
source parses the file into the local variable lines and never merges it
into the returned settings object. -/
theorem claim_C8_code_bug :
    ((get_or_create_lnurlp_settings
        ⟨some "/data/relays.txt",
         [("/data/relays.txt", "wss://relay.one\nwss://relay.two")]⟩
        ⟨[]⟩ "freshkey").2
      = { lnbits_nostr2http_relays := [], nostr_private_key := "freshkey" })
    ∧ ((get_or_create_lnurlp_settings
        ⟨some "/data/relays.txt",
         [("/data/relays.txt", "wss://relay.one\nwss://relay.two")]⟩
        ⟨[⟨"oldkey"⟩]⟩ "freshkey").2
      = { lnbits_nostr2http_relays := [], nostr_private_key := "oldkey" })
    ∧ pySplitStrip "wss://relay.one\nwss://relay.two"
        = ["wss://relay.one", "wss://relay.two"]
    ∧ ["wss://relay.one", "wss://relay.two"] ≠ ([] : List String) := by
  exact ⟨rfl, rfl, by decide, by decide⟩

/-- Claim C9: creating a pay link with a username already used by an
existing link fails with the username-taken validation error and inserts
no record (the error result carries no store; the exception precedes the
INSERT); creating with a fresh or absent username succeeds and the
returned record is mkNewPayLink — the input fields with both counters 0 —
appended to the store, retrievable by id and, when a username was given,
by username. The freshly generated short id is assumed collision-free
(the source does not guard against collisions, a documented open
question). -/
theorem claim_C9 (E : Collab) (db : Db) (data : CreatePayLinkData)
    (wallet_id link_id : String)
    (hid : ∀ l ∈ db.pay_links, (l.id == link_id) = false) :
    (∀ u, data.username = some u → u ≠ "" → E.fmt_ok u = true →
        check_lnaddress_not_exists db u = false →
        create_pay_link E db data wallet_id link_id
          = .error "Username already exists. Try a different one.")
    ∧ ((truthyStr data.username = false
          ∨ (E.fmt_ok (data.username.getD "") = true
              ∧ check_lnaddress_not_exists db (data.username.getD "") = true)) →
        create_pay_link E db data wallet_id link_id
            = .ok (⟨db.pay_links ++ [mkNewPayLink data wallet_id link_id]⟩,
                   mkNewPayLink data wallet_id link_id)
          ∧ get_pay_link
              ⟨db.pay_links ++ [mkNewPayLink data wallet_id link_id]⟩ link_id
              = some (mkNewPayLink data wallet_id link_id)
          ∧ (∀ u, data.username = some u → u ≠ "" →
              get_address_data
                ⟨db.pay_links ++ [mkNewPayLink data wallet_id link_id]⟩ u
                = some (mkNewPayLink data wallet_id link_id))) := by
  have hfound : get_pay_link
      ⟨db.pay_links ++ [mkNewPayLink data wallet_id link_id]⟩ link_id
      = some (mkNewPayLink data wallet_id link_id) := by
    unfold get_pay_link
    rw [List.find?_append, List.find?_eq_none.mpr ?hnone]
    case hnone =>
      intro l hl
      simp [hid l hl]
    simp [List.find?, mkNewPayLink]
  constructor
  · intro u hu hne hfmt hex
    have hbe : (u == "") = false := beq_eq_false_iff_ne.mpr hne
    unfold create_pay_link
    rw [hu]
    simp [truthyStr, hbe, hfmt, hex]
  · intro hcond
    have hc1 : (truthyStr data.username
        && ! E.fmt_ok (data.username.getD "")) = false := by
      rcases hcond with ht | ⟨hfmt, _⟩
      · rw [ht]; rfl
      · rw [hfmt]; simp
    have hc2 : (truthyStr data.username
        && ! check_lnaddress_not_exists db (data.username.getD "")) = false := by
      rcases hcond with ht | ⟨_, hex⟩
      · rw [ht]; rfl
      · rw [hex]; simp
    have hok : create_pay_link E db data wallet_id link_id
        = .ok (⟨db.pay_links ++ [mkNewPayLink data wallet_id link_id]⟩,
               mkNewPayLink data wallet_id link_id) := by
      unfold create_pay_link
      rw [hc1, hc2]
      dsimp only
      rw [hfound]
      rfl
    refine ⟨hok, hfound, ?_⟩
    intro u hu hne
    have ht : truthyStr data.username = true := by
      rw [hu]
      simp [truthyStr, beq_eq_false_iff_ne.mpr hne]
    have hex : check_lnaddress_not_exists db (data.username.getD "") = true := by
      rcases hcond with ht2 | ⟨_, hex⟩
      · rw [ht] at ht2; cases ht2
      · exact hex
    rw [hu] at hex
    have hrows : ∀ l ∈ db.pay_links, (l.username == some u) = false := by
      intro l hl
      by_contra hn
      have hmem : l ∈ db.pay_links.filter (fun l => l.username == some u) :=
        List.mem_filter.mpr ⟨hl, by simpa using hn⟩
      unfold check_lnaddress_not_exists at hex
      rw [List.isEmpty_iff] at hex
      exact List.ne_nil_of_mem hmem hex
    unfold get_address_data
    rw [List.find?_append, List.find?_eq_none.mpr ?hn2]
    case hn2 =>
      intro l hl
      simp [hrows l hl]
    simp [List.find?, mkNewPayLink, hu]

/-- Claim C9 witness: a duplicate username (alice) is refused on the
fixture store; a fresh creation with username carol on the empty store
succeeds and is retrievable by id. -/
theorem claim_C9_witness :
    create_pay_link fixRates fixDb
      { description := "Dup", min := 1, max := 2, webhook_url := none,
        webhook_headers := none, webhook_body := none, success_text := none,
        success_url := none, comment_chars := 0, currency := none,
        fiat_base_multiplier := 100, username := some "alice", zaps := false }
      "wallet9" "new001"
      = .error "Username already exists. Try a different one." := by
  have h := (claim_C9 fixRates fixDb
      { description := "Dup", min := 1, max := 2, webhook_url := none,
        webhook_headers := none, webhook_body := none, success_text := none,
        success_url := none, comment_chars := 0, currency := none,
        fiat_base_multiplier := 100, username := some "alice", zaps := false }
      "wallet9" "new001" (by decide)).1 "alice" rfl (by decide) rfl (by decide)
  exact h

/-- Claim C10 (implicit): a partial update of an existing link that
includes a non-empty username equal to the current username of that very
link fails with the username-taken error — the uniqueness query counts
every row, the updated link included, so re-submitting an unchanged
username is always rejected. -/
theorem claim_C10 (E : Collab) (db : Db) (link : PayLink) (u : String)
    (kw : PayLinkUpdate)
    (hmem : link ∈ db.pay_links) (hu : link.username = some u)
    (hne : u ≠ "") (hfmt : E.fmt_ok u = true)
    (hkw : kw.username = some (some u)) :
    update_pay_link E db link.id kw
      = .error "Username already exists. Try a different one." := by
  have hbe : (u == "") = false := beq_eq_false_iff_ne.mpr hne
  have hchk : check_lnaddress_not_exists db u = false := by
    have hmemf : link ∈ db.pay_links.filter (fun l => l.username == some u) :=
      List.mem_filter.mpr ⟨hmem, by simp [hu]⟩
    unfold check_lnaddress_not_exists
    rcases h : (db.pay_links.filter (fun l => l.username == some u)).isEmpty
    · exact h
    · rw [List.isEmpty_iff] at h
      exact absurd h (List.ne_nil_of_mem hmemf)
  unfold update_pay_link
  rw [hkw]
  simp [hbe, hfmt, hchk]

/-- Claim C10 witness: updating the satoshi fixture link with its own
username alice is rejected. -/
theorem claim_C10_witness :
    update_pay_link fixRates fixDb linkSat.id
      { description := none, min := none, max := none, comment_chars := none,
        currency := none, username := some (some "alice"), zaps := none }
      = .error "Username already exists. Try a different one." :=
  claim_C10 fixRates fixDb linkSat "alice"
    { description := none, min := none, max := none, comment_chars := none,
      currency := none, username := some (some "alice"), zaps := none }
    (by decide) rfl (by decide) rfl rfl
